/-
Verification of the taxonomy-demo pipeline (src/llm.py).

The program is a three-stage pure pipeline over strings:
  build_taxonomy : query × profile → taxonomy record
  generate_prompt : taxonomy → prompt text (template selected by content type, stripped)
  mock_llm_response : taxonomy → mock output text (template selected by content type)

This file embeds the three functions shallowly: Python dicts become
structures, f-strings become explicit `++` concatenations of the literal
template pieces, `str.strip()` becomes `strip` below (drop whitespace
characters from both ends), and `dict.get(key, default)` on the optional
content-type key becomes `Option.getD`.
-/
import Mathlib

set_option maxRecDepth 100000

namespace LlmDemo

/-- Model of Python `str.strip()` at the character-list level: drop
whitespace from the front, then from the back. -/
def stripL (l : List Char) : List Char :=
  ((l.dropWhile Char.isWhitespace).reverse.dropWhile Char.isWhitespace).reverse

/-- Model of Python `str.strip()` (only ASCII whitespace is relevant here:
the template ends are literal newlines). -/
def strip (s : String) : String :=
  ⟨stripL s.data⟩

/-- Executable prefix test on character lists. -/
def isPrefixOfL : List Char → List Char → Bool
  | [], _ => true
  | _ :: _, [] => false
  | a :: l, b :: m => a == b && isPrefixOfL l m

/-- Executable substring-occurrence test: does `pat` occur contiguously in
the second list? -/
def hasInfixL (pat : List Char) : List Char → Bool
  | [] => pat.isEmpty
  | c :: tl => isPrefixOfL pat (c :: tl) || hasInfixL pat tl

/-- Substring containment on strings, used to state the containment claims. -/
def strContains (s pat : String) : Bool :=
  hasInfixL pat.data s.data

/-- The user-profile record collected by the sidebar (src/llm.py lines
20-41).  `content_type_selection` is read in `build_taxonomy` via
`profile.get("content_type_selection", "Training")`, hence an `Option`. -/
structure UserProfile where
  name : String
  role : String
  skills : List String
  experience : String
  content_type_selection : Option String
deriving DecidableEq

/-- The derived taxonomy record (src/llm.py lines 68-78). -/
structure Taxonomy where
  skill : String
  content_type : String
  difficulty : String
  user_role : String
  learning_goal : String
  output_format : String
  context_depth : String
  model_dependency : String
  query : String
deriving DecidableEq

/-- src/llm.py lines 52-80: the taxonomy engine.  The learning-goal dict
lookup with fallback becomes a conditional chain with the same default. -/
def build_taxonomy (query : String) (profile : UserProfile) : Taxonomy :=
  let content_type := profile.content_type_selection.getD "Training"
  let learning_goal :=
    if content_type = "Training" then "Hands-on learning"
    else if content_type = "Assessment" then "Evaluate understanding"
    else if content_type = "Explanation" then "Conceptual clarity"
    else "Hands-on learning"
  let skill_focus :=
    match profile.skills with
    | [] => "General"
    | s :: _ => s
  let difficulty := profile.experience
  { skill := skill_focus
    content_type := content_type
    difficulty := difficulty
    user_role := profile.role
    learning_goal := learning_goal
    output_format := "Structured"
    context_depth := "High"
    model_dependency := "None (Model-Agnostic)"
    query := query }

/-- src/llm.py lines 85-101: the Training-branch f-string of `generate_prompt`
(before `.strip()`). -/
def training_prompt (t : Taxonomy) : String :=
  "\nYou are an expert technical instructor.\n\nCreate a " ++ t.difficulty ++
  " level TRAINING module for:\nSkill: " ++ t.skill ++
  "\nUser Role: " ++ t.user_role ++
  "\n\nRequirements:\n- Clear learning objectives\n- Concept explanation with real-world examples\n- Hands-on exercises\n- Common mistakes to avoid\n- Quick self-check questions\n\nAvoid generic explanations.\nFocus on applied understanding.\n"

/-- src/llm.py lines 103-116: the Assessment-branch f-string of
`generate_prompt` (before `.strip()`). -/
def assessment_prompt (t : Taxonomy) : String :=
  "\nYou are a senior technical evaluator.\n\nCreate a " ++ t.difficulty ++
  " level ASSESSMENT for:\nSkill: " ++ t.skill ++
  "\n\nRequirements:\n- 2 conceptual questions\n- 1 scenario-based question\n- Expected answer points\n- Evaluation rubric (0–5 scale)\n\nEnsure questions test real understanding, not memorization.\n"

/-- src/llm.py lines 118-131: the Explanation/default-branch f-string of
`generate_prompt` (before `.strip()`). -/
def explanation_prompt (t : Taxonomy) : String :=
  "\nYou are a senior technical mentor.\n\nExplain the following topic clearly:\nSkill: " ++ t.skill ++
  "\n\nRequirements:\n- Simple explanation\n- Architecture overview\n- Real-world use cases\n- Career relevance\n\nKeep it structured and concise.\n"

/-- src/llm.py lines 83-133: three-way dispatch on `content_type`, default
branch Explanation, result stripped. -/
def generate_prompt (t : Taxonomy) : String :=
  strip
    (if t.content_type = "Training" then training_prompt t
     else if t.content_type = "Assessment" then assessment_prompt t
     else explanation_prompt t)

/-- src/llm.py lines 141-162: the Training-branch mock output.  The source
also binds `difficulty = taxonomy["difficulty"]` but never interpolates it. -/
def training_output (t : Taxonomy) : String :=
  "\n### Learning Objectives\n- Understand " ++ t.skill ++
  " core concepts\n- Learn practical workflows\n- Handle common issues\n\n### Core Concepts\n" ++ t.skill ++
  " is a widely-used platform/technology for real-world applications.\n\n### Hands-on Exercise\n- Beginner: Simple exercises to understand basics\n- Intermediate: Create projects and mini pipelines\n- Advanced: Optimize performance, design scalable solutions\n\n### Common Pitfalls\n- Incorrect configurations\n- Ignoring best practices\n\n### Self-Check\n1. Explain the core idea of " ++ t.skill ++
  ".\n2. Apply " ++ t.skill ++ " to a sample scenario.\n"

/-- src/llm.py lines 164-177: the Assessment-branch mock output. -/
def assessment_output (t : Taxonomy) : String :=
  "\n### Assessment\n\n1. What is the main purpose of " ++ t.skill ++
  "?\n2. Explain a common use case.\n\n### Scenario\nDesign a solution using " ++ t.skill ++
  " for a practical problem.\n\n### Evaluation Rubric\n- Concept clarity (0–5)\n- Design correctness (0–5)\n- Scalability thinking (0–5)\n"

/-- src/llm.py lines 179-192: the Explanation/default-branch mock output. -/
def explanation_output (t : Taxonomy) : String :=
  "\n### " ++ t.skill ++ " Explained\n\n" ++ t.skill ++
  " enables efficient and reliable execution of tasks in practical scenarios.\n\n### Architecture\n- Key components\n- How they interact\n- Example workflows\n\n### Real-World Usage\n- Industry applications\n- Best practices\n"

/-- src/llm.py lines 136-192: three-way dispatch on `content_type`, default
branch Explanation, no stripping. -/
def mock_llm_response (t : Taxonomy) : String :=
  if t.content_type = "Training" then training_output t
  else if t.content_type = "Assessment" then assessment_output t
  else explanation_output t

/-- src/llm.py lines 195-199: the button handler runs the three stages in
sequence on the collected inputs. -/
def run_pipeline (query : String) (profile : UserProfile) :
    Taxonomy × String × String :=
  let taxonomy := build_taxonomy query profile
  (taxonomy, generate_prompt taxonomy, mock_llm_response taxonomy)

/-- The Training-branch prompt with the template's leading and trailing
newline removed; the interior is verbatim the template text. -/
def training_prompt_core (t : Taxonomy) : String :=
  "You are an expert technical instructor.\n\nCreate a " ++ t.difficulty ++
  " level TRAINING module for:\nSkill: " ++ t.skill ++
  "\nUser Role: " ++ t.user_role ++
  "\n\nRequirements:\n- Clear learning objectives\n- Concept explanation with real-world examples\n- Hands-on exercises\n- Common mistakes to avoid\n- Quick self-check questions\n\nAvoid generic explanations.\nFocus on applied understanding."

/-- The Assessment-branch prompt with the template's leading and trailing
newline removed. -/
def assessment_prompt_core (t : Taxonomy) : String :=
  "You are a senior technical evaluator.\n\nCreate a " ++ t.difficulty ++
  " level ASSESSMENT for:\nSkill: " ++ t.skill ++
  "\n\nRequirements:\n- 2 conceptual questions\n- 1 scenario-based question\n- Expected answer points\n- Evaluation rubric (0–5 scale)\n\nEnsure questions test real understanding, not memorization."

/-- The Explanation-branch prompt with the template's leading and trailing
newline removed. -/
def explanation_prompt_core (t : Taxonomy) : String :=
  "You are a senior technical mentor.\n\nExplain the following topic clearly:\nSkill: " ++ t.skill ++
  "\n\nRequirements:\n- Simple explanation\n- Architecture overview\n- Real-world use cases\n- Career relevance\n\nKeep it structured and concise."

/-- The three-way dispatch applied to the trimmed templates. -/
def prompt_core (t : Taxonomy) : String :=
  if t.content_type = "Training" then training_prompt_core t
  else if t.content_type = "Assessment" then assessment_prompt_core t
  else explanation_prompt_core t

/-- Sample inputs used by the witness theorems: the UI defaults of
src/llm.py lines 20-49. -/
def profile_default : UserProfile :=
  { name := "John", role := "Backend Engineer", skills := ["Kafka"],
    experience := "Intermediate", content_type_selection := some "Training" }

def profile_no_skills : UserProfile :=
  { profile_default with skills := [] }

def profile_kafka_java : UserProfile :=
  { profile_default with skills := ["Kafka", "Java"] }

def profile_unknown_type : UserProfile :=
  { profile_default with content_type_selection := some "Quiz" }

/-- The taxonomy the default UI inputs produce. -/
def tax_training : Taxonomy :=
  { skill := "Kafka", content_type := "Training", difficulty := "Intermediate",
    user_role := "Backend Engineer", learning_goal := "Hands-on learning",
    output_format := "Structured", context_depth := "High",
    model_dependency := "None (Model-Agnostic)", query := "Kafka training" }

def tax_assessment : Taxonomy :=
  { tax_training with
    content_type := "Assessment", learning_goal := "Evaluate understanding" }

/-- A taxonomy carrying an out-of-enum content type (the pass-through case). -/
def tax_unknown : Taxonomy :=
  { tax_training with content_type := "Quiz" }

/-- A taxonomy differing from `tax_training` only in fields neither
generator reads (and in `query`). -/
def tax_training_variant : Taxonomy :=
  { tax_training with
    query := "please explain Kafka", learning_goal := "X",
    output_format := "Y", context_depth := "Z", model_dependency := "W" }

/-- Explanation-branch taxonomy whose skill literally equals its
difficulty; the skill interpolation puts the difficulty into the prompt. -/
def tax_skill_beginner : Taxonomy :=
  { tax_training with
    skill := "Beginner", content_type := "Explanation",
    difficulty := "Beginner", learning_goal := "Conceptual clarity" }

/-- Explanation-branch taxonomy with in-domain skill and difficulty. -/
def tax_explanation : Taxonomy :=
  { tax_training with
    content_type := "Explanation", learning_goal := "Conceptual clarity" }

theorem str_append_assoc (a b c : String) : a ++ b ++ c = a ++ (b ++ c) := by
  apply String.ext
  simp [String.data_append]

theorem head?_data_append (a b : String) (c : Char) (h : a.data.head? = some c) :
    (a ++ b).data.head? = some c := by
  rw [String.data_append]
  cases ha : a.data with
  | nil => rw [ha] at h; simp at h
  | cons x xs =>
    rw [ha] at h
    simp only [List.head?_cons, Option.some.injEq] at h
    simp [h]

theorem getLast?_data_append (a b : String) (c : Char)
    (h : b.data.getLast? = some c) : (a ++ b).data.getLast? = some c := by
  rw [String.data_append, List.getLast?_append_of_ne_nil]
  · exact h
  · intro hb
    rw [hb] at h
    simp at h

theorem stripL_wrap (m : List Char) (c₁ c₂ : Char)
    (h₁ : m.head? = some c₁) (hc₁ : c₁.isWhitespace = false)
    (h₂ : m.getLast? = some c₂) (hc₂ : c₂.isWhitespace = false) :
    stripL ('\n' :: (m ++ ['\n'])) = m := by
  have hnl : Char.isWhitespace '\n' = true := by decide
  cases m with
  | nil => simp at h₁
  | cons a tl =>
    simp only [List.head?_cons, Option.some.injEq] at h₁
    subst h₁
    unfold stripL
    have step1 : List.dropWhile Char.isWhitespace ('\n' :: ((a :: tl) ++ ['\n'])) =
        (a :: tl) ++ ['\n'] := by
      rw [List.dropWhile_cons, if_pos hnl, List.cons_append, List.dropWhile_cons,
        hc₁]
      simp
    have step2 : ((a :: tl) ++ ['\n']).reverse = '\n' :: (a :: tl).reverse := by
      simp
    have hr : (a :: tl).reverse.head? = some c₂ := by
      rw [List.head?_reverse]
      exact h₂
    have step3 : List.dropWhile Char.isWhitespace ('\n' :: (a :: tl).reverse) =
        (a :: tl).reverse := by
      rw [List.dropWhile_cons, if_pos hnl]
      cases hrev : (a :: tl).reverse with
      | nil => simp at hrev
      | cons b rest =>
        rw [hrev] at hr
        simp only [List.head?_cons, Option.some.injEq] at hr
        subst hr
        rw [List.dropWhile_cons, hc₂]
        simp
    rw [step1, step2, step3, List.reverse_reverse]

theorem strip_wrap (m : String) (c₁ c₂ : Char)
    (h₁ : m.data.head? = some c₁) (hc₁ : c₁.isWhitespace = false)
    (h₂ : m.data.getLast? = some c₂) (hc₂ : c₂.isWhitespace = false) :
    strip ("\n" ++ (m ++ "\n")) = m := by
  apply String.ext
  show stripL ("\n" ++ (m ++ "\n")).data = m.data
  rw [String.data_append, String.data_append]
  have hd : ("\n" : String).data = ['\n'] := rfl
  rw [hd, List.singleton_append]
  exact stripL_wrap m.data c₁ c₂ h₁ hc₁ h₂ hc₂

theorem training_prompt_wrap (t : Taxonomy) :
    training_prompt t = "\n" ++ (training_prompt_core t ++ "\n") := by
  unfold training_prompt training_prompt_core
  have e₁ : ("\nYou are an expert technical instructor.\n\nCreate a " : String) =
      "\n" ++ "You are an expert technical instructor.\n\nCreate a " := by decide
  have e₂ : ("\n\nRequirements:\n- Clear learning objectives\n- Concept explanation with real-world examples\n- Hands-on exercises\n- Common mistakes to avoid\n- Quick self-check questions\n\nAvoid generic explanations.\nFocus on applied understanding.\n" : String) =
      "\n\nRequirements:\n- Clear learning objectives\n- Concept explanation with real-world examples\n- Hands-on exercises\n- Common mistakes to avoid\n- Quick self-check questions\n\nAvoid generic explanations.\nFocus on applied understanding." ++ "\n" := by decide
  rw [e₁, e₂]
  simp only [str_append_assoc]

theorem assessment_prompt_wrap (t : Taxonomy) :
    assessment_prompt t = "\n" ++ (assessment_prompt_core t ++ "\n") := by
  unfold assessment_prompt assessment_prompt_core
  have e₁ : ("\nYou are a senior technical evaluator.\n\nCreate a " : String) =
      "\n" ++ "You are a senior technical evaluator.\n\nCreate a " := by decide
  have e₂ : ("\n\nRequirements:\n- 2 conceptual questions\n- 1 scenario-based question\n- Expected answer points\n- Evaluation rubric (0–5 scale)\n\nEnsure questions test real understanding, not memorization.\n" : String) =
      "\n\nRequirements:\n- 2 conceptual questions\n- 1 scenario-based question\n- Expected answer points\n- Evaluation rubric (0–5 scale)\n\nEnsure questions test real understanding, not memorization." ++ "\n" := by decide
  rw [e₁, e₂]
  simp only [str_append_assoc]

theorem explanation_prompt_wrap (t : Taxonomy) :
    explanation_prompt t = "\n" ++ (explanation_prompt_core t ++ "\n") := by
  unfold explanation_prompt explanation_prompt_core
  have e₁ : ("\nYou are a senior technical mentor.\n\nExplain the following topic clearly:\nSkill: " : String) =
      "\n" ++ "You are a senior technical mentor.\n\nExplain the following topic clearly:\nSkill: " := by decide
  have e₂ : ("\n\nRequirements:\n- Simple explanation\n- Architecture overview\n- Real-world use cases\n- Career relevance\n\nKeep it structured and concise.\n" : String) =
      "\n\nRequirements:\n- Simple explanation\n- Architecture overview\n- Real-world use cases\n- Career relevance\n\nKeep it structured and concise." ++ "\n" := by decide
  rw [e₁, e₂]
  simp only [str_append_assoc]

theorem training_core_head (t : Taxonomy) :
    (training_prompt_core t).data.head? = some 'Y' := by
  unfold training_prompt_core
  repeat apply head?_data_append
  decide

theorem training_core_last (t : Taxonomy) :
    (training_prompt_core t).data.getLast? = some '.' := by
  unfold training_prompt_core
  apply getLast?_data_append
  decide

theorem assessment_core_head (t : Taxonomy) :
    (assessment_prompt_core t).data.head? = some 'Y' := by
  unfold assessment_prompt_core
  repeat apply head?_data_append
  decide

theorem assessment_core_last (t : Taxonomy) :
    (assessment_prompt_core t).data.getLast? = some '.' := by
  unfold assessment_prompt_core
  apply getLast?_data_append
  decide

theorem explanation_core_head (t : Taxonomy) :
    (explanation_prompt_core t).data.head? = some 'Y' := by
  unfold explanation_prompt_core
  repeat apply head?_data_append
  decide

theorem explanation_core_last (t : Taxonomy) :
    (explanation_prompt_core t).data.getLast? = some '.' := by
  unfold explanation_prompt_core
  apply getLast?_data_append
  decide

theorem strip_training_prompt (t : Taxonomy) :
    strip (training_prompt t) = training_prompt_core t := by
  rw [training_prompt_wrap]
  exact strip_wrap _ 'Y' '.' (training_core_head t) (by decide)
    (training_core_last t) (by decide)

theorem strip_assessment_prompt (t : Taxonomy) :
    strip (assessment_prompt t) = assessment_prompt_core t := by
  rw [assessment_prompt_wrap]
  exact strip_wrap _ 'Y' '.' (assessment_core_head t) (by decide)
    (assessment_core_last t) (by decide)

theorem strip_explanation_prompt (t : Taxonomy) :
    strip (explanation_prompt t) = explanation_prompt_core t := by
  rw [explanation_prompt_wrap]
  exact strip_wrap _ 'Y' '.' (explanation_core_head t) (by decide)
    (explanation_core_last t) (by decide)

theorem generate_prompt_eq_core (t : Taxonomy) :
    generate_prompt t = prompt_core t := by
  unfold generate_prompt prompt_core
  by_cases h₁ : t.content_type = "Training"
  · rw [if_pos h₁, if_pos h₁, strip_training_prompt]
  · rw [if_neg h₁, if_neg h₁]
    by_cases h₂ : t.content_type = "Assessment"
    · rw [if_pos h₂, if_pos h₂, strip_assessment_prompt]
    · rw [if_neg h₂, if_neg h₂, strip_explanation_prompt]

theorem isPrefixOfL_append (p l m : List Char) (h : isPrefixOfL p l = true) :
    isPrefixOfL p (l ++ m) = true := by
  induction p generalizing l with
  | nil => simp [isPrefixOfL]
  | cons a p ih =>
    cases l with
    | nil => simp [isPrefixOfL] at h
    | cons b l =>
      simp only [List.cons_append]
      simp only [isPrefixOfL, Bool.and_eq_true, beq_iff_eq] at h ⊢
      exact ⟨h.1, ih l h.2⟩

theorem hasInfixL_nil_pat (l : List Char) : hasInfixL [] l = true := by
  cases l with
  | nil => rfl
  | cons c tl => simp [hasInfixL, isPrefixOfL]

theorem hasInfixL_append_left (pat a b : List Char) (h : hasInfixL pat a = true) :
    hasInfixL pat (a ++ b) = true := by
  induction a with
  | nil =>
    simp only [hasInfixL, List.isEmpty_iff] at h
    subst h
    exact hasInfixL_nil_pat b
  | cons c tl ih =>
    simp only [List.cons_append]
    simp only [hasInfixL, Bool.or_eq_true] at h ⊢
    rcases h with h | h
    · exact Or.inl (isPrefixOfL_append pat (c :: tl) b h)
    · exact Or.inr (ih h)

theorem hasInfixL_append_right (pat a b : List Char) (h : hasInfixL pat b = true) :
    hasInfixL pat (a ++ b) = true := by
  induction a with
  | nil => simpa using h
  | cons c tl ih =>
    simp only [List.cons_append]
    simp only [hasInfixL, Bool.or_eq_true]
    exact Or.inr ih

theorem strContains_append_left (a b pat : String)
    (h : strContains a pat = true) : strContains (a ++ b) pat = true := by
  unfold strContains at h ⊢
  rw [String.data_append]
  exact hasInfixL_append_left _ _ _ h

theorem strContains_append_right (a b pat : String)
    (h : strContains b pat = true) : strContains (a ++ b) pat = true := by
  unfold strContains at h ⊢
  rw [String.data_append]
  exact hasInfixL_append_right _ _ _ h

/-- C1: for every profile and query string, calling the pipeline on
identical inputs yields byte-identical results: the taxonomy record, the
generated prompt and the mock response agree across the two calls (full
determinism; the embedding is a pure function of the inputs, matching the
source, which reads no global state, clock or randomness). -/
theorem C1_pipeline_deterministic (q₁ q₂ : String) (p₁ p₂ : UserProfile)
    (hq : q₁ = q₂) (hp : p₁ = p₂) :
    run_pipeline q₁ p₁ = run_pipeline q₂ p₂ := by
  subst hq
  subst hp
  rfl

/-- C1 witness: two calls on the UI default inputs coincide. -/
theorem C1_pipeline_deterministic_witness :
    run_pipeline "Kafka training" profile_default =
      run_pipeline "Kafka training" profile_default :=
  C1_pipeline_deterministic "Kafka training" "Kafka training"
    profile_default profile_default rfl rfl

/-- C2: the taxonomy's skill is the first element of the profile's skills
list when non-empty, and the literal "General" when the list is empty. -/
theorem C2_skill_selection (q : String) (p : UserProfile) :
    (p.skills = [] → (build_taxonomy q p).skill = "General") ∧
    (∀ s rest, p.skills = s :: rest → (build_taxonomy q p).skill = s) := by
  constructor
  · intro h
    simp [build_taxonomy, h]
  · intro s rest h
    simp [build_taxonomy, h]

/-- C2 witness: skills = [] gives "General"; skills = ["Kafka","Java"]
gives "Kafka". -/
theorem C2_skill_selection_witness :
    (build_taxonomy "q" profile_no_skills).skill = "General" ∧
    (build_taxonomy "q" profile_kafka_java).skill = "Kafka" :=
  ⟨(C2_skill_selection "q" profile_no_skills).1 rfl,
   (C2_skill_selection "q" profile_kafka_java).2 "Kafka" ["Java"] rfl⟩

/-- C3: the learning goal is derived from the content-type selection by the
fixed total lookup (Training, Assessment, Explanation mapped to their goal
strings, anything else defaulting to "Hands-on learning"), while
content_type itself carries the possibly-unknown selection through
unchanged. -/
theorem C3_learning_goal_map (q : String) (p : UserProfile) (s : String)
    (h : p.content_type_selection = some s) :
    (build_taxonomy q p).content_type = s ∧
    (s = "Training" → (build_taxonomy q p).learning_goal = "Hands-on learning") ∧
    (s = "Assessment" → (build_taxonomy q p).learning_goal = "Evaluate understanding") ∧
    (s = "Explanation" → (build_taxonomy q p).learning_goal = "Conceptual clarity") ∧
    (s ≠ "Training" → s ≠ "Assessment" → s ≠ "Explanation" →
      (build_taxonomy q p).learning_goal = "Hands-on learning") := by
  refine ⟨by simp [build_taxonomy, h], ?_, ?_, ?_, ?_⟩
  · intro hs
    simp [build_taxonomy, h, hs]
  · intro hs
    simp [build_taxonomy, h, hs]
  · intro hs
    simp [build_taxonomy, h, hs]
  · intro h₁ h₂ h₃
    simp [build_taxonomy, h, h₁, h₂, h₃]

/-- C3 witness: the unknown selection "Quiz" passes through to content_type
while the learning goal falls back to "Hands-on learning". -/
theorem C3_learning_goal_map_witness :
    (build_taxonomy "q" profile_unknown_type).content_type = "Quiz" ∧
    (build_taxonomy "q" profile_unknown_type).learning_goal = "Hands-on learning" :=
  ⟨(C3_learning_goal_map "q" profile_unknown_type "Quiz" rfl).1,
   (C3_learning_goal_map "q" profile_unknown_type "Quiz" rfl).2.2.2.2
     (by decide) (by decide) (by decide)⟩

/-- C4: both generators dispatch on content_type into exactly three
branches with the same policy: "Training" selects the Training template,
"Assessment" the Assessment template, and every other value the
Explanation template; both functions are total, with no error branch. -/
theorem C4_dispatch_policy (t : Taxonomy) :
    (t.content_type = "Training" →
      generate_prompt t = strip (training_prompt t) ∧
      mock_llm_response t = training_output t) ∧
    (t.content_type = "Assessment" →
      generate_prompt t = strip (assessment_prompt t) ∧
      mock_llm_response t = assessment_output t) ∧
    (t.content_type ≠ "Training" → t.content_type ≠ "Assessment" →
      generate_prompt t = strip (explanation_prompt t) ∧
      mock_llm_response t = explanation_output t) := by
  refine ⟨?_, ?_, ?_⟩
  · intro h
    constructor
    · unfold generate_prompt
      rw [if_pos h]
    · unfold mock_llm_response
      rw [if_pos h]
  · intro h
    have hne : t.content_type ≠ "Training" := by
      rw [h]
      decide
    constructor
    · unfold generate_prompt
      rw [if_neg hne, if_pos h]
    · unfold mock_llm_response
      rw [if_neg hne, if_pos h]
  · intro h₁ h₂
    constructor
    · unfold generate_prompt
      rw [if_neg h₁, if_neg h₂]
    · unfold mock_llm_response
      rw [if_neg h₁, if_neg h₂]

/-- C4 witness: the Assessment branch and the unknown-type default branch
at concrete taxonomies. -/
theorem C4_dispatch_policy_witness :
    mock_llm_response tax_assessment = assessment_output tax_assessment ∧
    mock_llm_response tax_unknown = explanation_output tax_unknown :=
  ⟨((C4_dispatch_policy tax_assessment).2.1 rfl).2,
   ((C4_dispatch_policy tax_unknown).2.2 (by decide) (by decide)).2⟩

/-- C5: two taxonomies equal except in difficulty give identical mock
responses (difficulty is never interpolated into MockResponder output),
whereas generate_prompt does depend on difficulty (shown on the Training
branch). -/
theorem C5_mock_difficulty_invariant :
    (∀ (t : Taxonomy) (d : String),
      mock_llm_response { t with difficulty := d } = mock_llm_response t) ∧
    generate_prompt { tax_training with difficulty := "Advanced" } ≠
      generate_prompt tax_training :=
  ⟨fun _ _ => rfl, by decide⟩

/-- C5 witness: a concrete difficulty change leaves the mock response
unchanged. -/
theorem C5_mock_difficulty_invariant_witness :
    mock_llm_response { tax_training with difficulty := "Advanced" } =
      mock_llm_response tax_training :=
  C5_mock_difficulty_invariant.1 tax_training "Advanced"

/-- C6: every Training-branch mock response contains all three
difficulty-tier bullets (Beginner, Intermediate, Advanced), regardless of
the taxonomy's actual difficulty value. -/
theorem C6_training_mock_tiers (t : Taxonomy)
    (h : t.content_type = "Training") :
    strContains (mock_llm_response t)
      "- Beginner: Simple exercises to understand basics" = true ∧
    strContains (mock_llm_response t)
      "- Intermediate: Create projects and mini pipelines" = true ∧
    strContains (mock_llm_response t)
      "- Advanced: Optimize performance, design scalable solutions" = true := by
  have hm : mock_llm_response t = training_output t := by
    unfold mock_llm_response
    rw [if_pos h]
  rw [hm]
  unfold training_output
  refine ⟨?_, ?_, ?_⟩ <;>
  · apply strContains_append_left
    apply strContains_append_left
    apply strContains_append_left
    apply strContains_append_left
    apply strContains_append_right
    decide

/-- C6 witness: the three tier bullets at the default Training taxonomy. -/
theorem C6_training_mock_tiers_witness :
    strContains (mock_llm_response tax_training)
      "- Beginner: Simple exercises to understand basics" = true ∧
    strContains (mock_llm_response tax_training)
      "- Intermediate: Create projects and mini pipelines" = true ∧
    strContains (mock_llm_response tax_training)
      "- Advanced: Optimize performance, design scalable solutions" = true :=
  C6_training_mock_tiers tax_training rfl

/-- C7: the generated prompt equals the selected template with its leading
and trailing blank lines removed and the interior preserved verbatim
(prompt_core repeats the template text without the outer newlines); in
particular neither the first nor the last character of the result is
whitespace. -/
theorem C7_prompt_stripped (t : Taxonomy) :
    generate_prompt t = prompt_core t ∧
    ((generate_prompt t).data.head?.all fun c => !c.isWhitespace) = true ∧
    ((generate_prompt t).data.getLast?.all fun c => !c.isWhitespace) = true := by
  refine ⟨generate_prompt_eq_core t, ?_, ?_⟩
  · rw [generate_prompt_eq_core t]
    have hh : (prompt_core t).data.head? = some 'Y' := by
      unfold prompt_core
      by_cases h₁ : t.content_type = "Training"
      · rw [if_pos h₁]
        exact training_core_head t
      · rw [if_neg h₁]
        by_cases h₂ : t.content_type = "Assessment"
        · rw [if_pos h₂]
          exact assessment_core_head t
        · rw [if_neg h₂]
          exact explanation_core_head t
    rw [hh]
    decide
  · rw [generate_prompt_eq_core t]
    have hl : (prompt_core t).data.getLast? = some '.' := by
      unfold prompt_core
      by_cases h₁ : t.content_type = "Training"
      · rw [if_pos h₁]
        exact training_core_last t
      · rw [if_neg h₁]
        by_cases h₂ : t.content_type = "Assessment"
        · rw [if_pos h₂]
          exact assessment_core_last t
        · rw [if_neg h₂]
          exact explanation_core_last t
    rw [hl]
    decide

/-- C7 witness: the default Training taxonomy's prompt equals the trimmed
template. -/
theorem C7_prompt_stripped_witness :
    generate_prompt tax_training = prompt_core tax_training :=
  (C7_prompt_stripped tax_training).1

/-- C8 counterexample: the claim as stated is false.  On the Explanation
branch the skill is interpolated into the prompt, so a taxonomy whose
skill equals its difficulty (here both "Beginner") produces a prompt that
does contain the difficulty value. -/
theorem C8_claim_counterexample :
    tax_skill_beginner.content_type ≠ "Training" ∧
    tax_skill_beginner.content_type ≠ "Assessment" ∧
    strContains (generate_prompt tax_skill_beginner)
      tax_skill_beginner.difficulty = true :=
  ⟨by decide, by decide, by decide⟩

/-- C8 (amended): for taxonomies in the documented input domain —
difficulty one of the three experience levels and skill one of the five UI
skill options or the sentinel "General" — Explanation/default-branch
prompts never contain the difficulty value as a substring. -/
theorem C8_explanation_no_difficulty (t : Taxonomy)
    (h₁ : t.content_type ≠ "Training") (h₂ : t.content_type ≠ "Assessment")
    (hd : t.difficulty = "Beginner" ∨ t.difficulty = "Intermediate" ∨
      t.difficulty = "Advanced")
    (hs : t.skill = "Kafka" ∨ t.skill = "Java" ∨ t.skill = "Spring Boot" ∨
      t.skill = "Python" ∨ t.skill = "SQL" ∨ t.skill = "General") :
    strContains (generate_prompt t) t.difficulty = false := by
  have hgp : generate_prompt t = strip (explanation_prompt t) := by
    unfold generate_prompt
    rw [if_neg h₁, if_neg h₂]
  rw [hgp]
  unfold explanation_prompt
  rcases hd with hd | hd | hd <;>
    rcases hs with hs | hs | hs | hs | hs | hs <;>
    rw [hd, hs] <;> decide

/-- C8 witness: the in-domain Explanation taxonomy's prompt does not
contain its difficulty. -/
theorem C8_explanation_no_difficulty_witness :
    strContains (generate_prompt tax_explanation)
      tax_explanation.difficulty = false :=
  C8_explanation_no_difficulty tax_explanation (by decide) (by decide)
    (Or.inr (Or.inl rfl)) (Or.inl rfl)

/-- C9: taxonomies agreeing on skill, content_type, difficulty and
user_role — but differing arbitrarily in query, learning_goal,
output_format, context_depth or model_dependency — produce identical
prompts and identical mock responses: the free-text query never influences
either generated text. -/
theorem C9_generators_ignore_other_fields (t₁ t₂ : Taxonomy)
    (hs : t₁.skill = t₂.skill) (hc : t₁.content_type = t₂.content_type)
    (hd : t₁.difficulty = t₂.difficulty) (hr : t₁.user_role = t₂.user_role) :
    generate_prompt t₁ = generate_prompt t₂ ∧
    mock_llm_response t₁ = mock_llm_response t₂ := by
  cases t₁
  cases t₂
  simp only at hs hc hd hr
  subst hs hc hd hr
  exact ⟨rfl, rfl⟩

/-- C9 witness: changing query and the constant descriptive fields leaves
both outputs unchanged. -/
theorem C9_generators_ignore_other_fields_witness :
    generate_prompt tax_training = generate_prompt tax_training_variant ∧
    mock_llm_response tax_training = mock_llm_response tax_training_variant :=
  C9_generators_ignore_other_fields tax_training tax_training_variant
    rfl rfl rfl rfl

/-- C10: every mock response begins and ends with a newline character: each
branch returns its template with the leading and trailing blank lines
untrimmed (unlike generate_prompt, whose result is stripped). -/
theorem C10_mock_newline_wrapped (t : Taxonomy) :
    (mock_llm_response t).data.head? = some '\n' ∧
    (mock_llm_response t).data.getLast? = some '\n' := by
  unfold mock_llm_response
  by_cases h₁ : t.content_type = "Training"
  · rw [if_pos h₁]
    unfold training_output
    constructor
    · repeat apply head?_data_append
      decide
    · apply getLast?_data_append
      decide
  · rw [if_neg h₁]
    by_cases h₂ : t.content_type = "Assessment"
    · rw [if_pos h₂]
      unfold assessment_output
      constructor
      · repeat apply head?_data_append
        decide
      · apply getLast?_data_append
        decide
    · rw [if_neg h₂]
      unfold explanation_output
      constructor
      · repeat apply head?_data_append
        decide
      · apply getLast?_data_append
        decide

/-- C10 witness: newline wrapping of the mock response at the default
Training taxonomy. -/
theorem C10_mock_newline_wrapped_witness :
    (mock_llm_response tax_training).data.head? = some '\n' ∧
    (mock_llm_response tax_training).data.getLast? = some '\n' :=
  C10_mock_newline_wrapped tax_training

end LlmDemo
